import Mathlib

/-!
Shallow embedding of `td/telegram/PhotoSize.cpp` (repository `td`), together
with theorems settling the specification claims about this file.

Modelling conventions:
* machine integers are embedded as `Int` (for `int32`/`int64` values) or
  `Nat` (for `uint8`/`uint16`/`uint32` values); the operations involved never
  overflow their C++ types within the ranges the code produces;
* C++ strings and byte buffers are `List Nat` of byte values;
* the external `FileManager` registrar is represented by the file handle it
  would return and by flags recording which external calls were made;
* `LOG(ERROR)` diagnostics are counted in a `violations` field;
* `double` timestamps are embedded as exact rationals `ℚ`.
-/

namespace td

/-- `Dimensions` from PhotoSize.h: a pair of `uint16` fields. -/
structure Dimensions where
  width : Nat := 0
  height : Nat := 0
deriving DecidableEq

/-- `get_dimension` (PhotoSize.cpp:25): out-of-range `int32` becomes 0,
otherwise the value is narrowed to `uint16`. -/
def get_dimension (size : Int) : Nat :=
  if size < 0 ∨ size > 65535 then 0 else size.toNat

/-- `get_dimensions` (PhotoSize.cpp:33): validate both coordinates, then
force both to zero if either is zero. -/
def get_dimensions (width height : Int) : Dimensions :=
  let w := get_dimension width
  let h := get_dimension height
  if w = 0 ∨ h = 0 then ⟨0, 0⟩ else ⟨w, h⟩

/-- `get_pixel_count` (PhotoSize.cpp:44): `uint16 * uint16` computed in
`uint32`; the product is at most `65535 * 65535 < 2^32`, so plain `Nat`
multiplication is exact. -/
def get_pixel_count (dimensions : Dimensions) : Nat :=
  dimensions.width * dimensions.height

/-- `PhotoSize` from PhotoSize.h: `type` is a `uint8` tag, `size` an `int32`,
`file_id` the `int32` value stored in a `FileId` (default-constructed id 0),
`progressive_sizes` a `vector<int32>`. -/
structure PhotoSize where
  type : Nat := 0
  dimensions : Dimensions := {}
  size : Int := 0
  file_id : Int := 0
  progressive_sizes : List Int := []
deriving DecidableEq

/-- `operator==(const PhotoSize &, const PhotoSize &)` (PhotoSize.cpp:398). -/
def photoSizeEq (lhs rhs : PhotoSize) : Bool :=
  lhs.type == rhs.type && lhs.dimensions == rhs.dimensions && lhs.size == rhs.size &&
    lhs.file_id == rhs.file_id && lhs.progressive_sizes == rhs.progressive_sizes

/-- `operator<(const PhotoSize &, const PhotoSize &)` (PhotoSize.cpp:407).
The byte `'t'` is 116. -/
def photoSizeLt (lhs rhs : PhotoSize) : Bool :=
  if lhs.size ≠ rhs.size then
    decide (lhs.size < rhs.size)
  else
    let lhs_pixels := get_pixel_count lhs.dimensions
    let rhs_pixels := get_pixel_count rhs.dimensions
    if lhs_pixels ≠ rhs_pixels then
      decide (lhs_pixels < rhs_pixels)
    else
      let lhs_type : Int := if lhs.type = 116 then -1 else lhs.type
      let rhs_type : Int := if rhs.type = 116 then -1 else rhs.type
      if lhs_type ≠ rhs_type then
        decide (lhs_type < rhs_type)
      else if lhs.file_id ≠ rhs.file_id then
        decide (lhs.file_id < rhs.file_id)
      else
        decide (lhs.dimensions.width < rhs.dimensions.width)

/-- The tag key used at the third comparison level, as the spec words it:
the thumbnail-role tag `'t'` (byte 116) sorts as the value `-1`. -/
def tagKey (type : Nat) : Int :=
  if type = 116 then -1 else type

/-- The comparator exactly as §4.6 of the spec words it: a lexicographic
comparison of (size, pixel count, tag key, file handle, width). -/
def photoSizeLtSpec (lhs rhs : PhotoSize) : Bool :=
  decide (lhs.size < rhs.size) ||
    (lhs.size == rhs.size &&
      (decide (get_pixel_count lhs.dimensions < get_pixel_count rhs.dimensions) ||
        (get_pixel_count lhs.dimensions == get_pixel_count rhs.dimensions &&
          (decide (tagKey lhs.type < tagKey rhs.type) ||
            (tagKey lhs.type == tagKey rhs.type &&
              (decide (lhs.file_id < rhs.file_id) ||
                (lhs.file_id == rhs.file_id &&
                  decide (lhs.dimensions.width < rhs.dimensions.width))))))))

/-- The §3 invariant on `Dimensions`: both fields nonzero, or both zero. -/
def dimensionsInvariant (d : Dimensions) : Prop :=
  (d.width = 0 ∧ d.height = 0) ∨ (d.width ≠ 0 ∧ d.height ≠ 0)

instance (d : Dimensions) : Decidable (dimensionsInvariant d) := by
  unfold dimensionsInvariant; infer_instance

end td

namespace td

/-- The fixed JPEG header template of `get_minithumbnail_object`
(PhotoSize.cpp:65): the base64 literal decoded to its 623 bytes. -/
def mini_header : List Nat := [
  255, 216, 255, 224, 0, 16, 74, 70, 73, 70, 0, 1, 1, 0, 0, 1, 0, 1, 0, 0,
  255, 219, 0, 67, 0, 40, 28, 30, 35, 30, 25, 40, 35, 33, 35, 45, 43, 40, 48, 60,
  100, 65, 60, 55, 55, 60, 123, 88, 93, 73, 100, 145, 128, 153, 150, 143, 128, 140, 138, 160,
  180, 230, 195, 160, 170, 218, 173, 138, 140, 200, 255, 203, 218, 238, 245, 255, 255, 255, 155, 193,
  255, 255, 255, 250, 255, 230, 253, 255, 248, 255, 219, 0, 67, 1, 43, 45, 45, 60, 53, 60,
  118, 65, 65, 118, 248, 165, 140, 165, 248, 248, 248, 248, 248, 248, 248, 248, 248, 248, 248, 248,
  248, 248, 248, 248, 248, 248, 248, 248, 248, 248, 248, 248, 248, 248, 248, 248, 248, 248, 248, 248,
  248, 248, 248, 248, 248, 248, 248, 248, 248, 248, 248, 248, 248, 248, 248, 248, 248, 248, 255, 192,
  0, 17, 8, 0, 0, 0, 0, 3, 1, 34, 0, 2, 17, 1, 3, 17, 1, 255, 196, 0,
  31, 0, 0, 1, 5, 1, 1, 1, 1, 1, 1, 0, 0, 0, 0, 0, 0, 0, 0, 1,
  2, 3, 4, 5, 6, 7, 8, 9, 10, 11, 255, 196, 0, 181, 16, 0, 2, 1, 3, 3,
  2, 4, 3, 5, 5, 4, 4, 0, 0, 1, 125, 1, 2, 3, 0, 4, 17, 5, 18, 33,
  49, 65, 6, 19, 81, 97, 7, 34, 113, 20, 50, 129, 145, 161, 8, 35, 66, 177, 193, 21,
  82, 209, 240, 36, 51, 98, 114, 130, 9, 10, 22, 23, 24, 25, 26, 37, 38, 39, 40, 41,
  42, 52, 53, 54, 55, 56, 57, 58, 67, 68, 69, 70, 71, 72, 73, 74, 83, 84, 85, 86,
  87, 88, 89, 90, 99, 100, 101, 102, 103, 104, 105, 106, 115, 116, 117, 118, 119, 120, 121, 122,
  131, 132, 133, 134, 135, 136, 137, 138, 146, 147, 148, 149, 150, 151, 152, 153, 154, 162, 163, 164,
  165, 166, 167, 168, 169, 170, 178, 179, 180, 181, 182, 183, 184, 185, 186, 194, 195, 196, 197, 198,
  199, 200, 201, 202, 210, 211, 212, 213, 214, 215, 216, 217, 218, 225, 226, 227, 228, 229, 230, 231,
  232, 233, 234, 241, 242, 243, 244, 245, 246, 247, 248, 249, 250, 255, 196, 0, 31, 1, 0, 3,
  1, 1, 1, 1, 1, 1, 1, 1, 1, 0, 0, 0, 0, 0, 0, 1, 2, 3, 4, 5,
  6, 7, 8, 9, 10, 11, 255, 196, 0, 181, 17, 0, 2, 1, 2, 4, 4, 3, 4, 7,
  5, 4, 4, 0, 1, 2, 119, 0, 1, 2, 3, 17, 4, 5, 33, 49, 6, 18, 65, 81,
  7, 97, 113, 19, 34, 50, 129, 8, 20, 66, 145, 161, 177, 193, 9, 35, 51, 82, 240, 21,
  98, 114, 209, 10, 22, 36, 52, 225, 37, 241, 23, 24, 25, 26, 38, 39, 40, 41, 42, 53,
  54, 55, 56, 57, 58, 67, 68, 69, 70, 71, 72, 73, 74, 83, 84, 85, 86, 87, 88, 89,
  90, 99, 100, 101, 102, 103, 104, 105, 106, 115, 116, 117, 118, 119, 120, 121, 122, 130, 131, 132,
  133, 134, 135, 136, 137, 138, 146, 147, 148, 149, 150, 151, 152, 153, 154, 162, 163, 164, 165, 166,
  167, 168, 169, 170, 178, 179, 180, 181, 182, 183, 184, 185, 186, 194, 195, 196, 197, 198, 199, 200,
  201, 202, 210, 211, 212, 213, 214, 215, 216, 217, 218, 226, 227, 228, 229, 230, 231, 232, 233, 234,
  242, 243, 244, 245, 246, 247, 248, 249, 250, 255, 218, 0, 12, 3, 1, 0, 2, 17, 3, 17,
  0, 63, 0]

/-- The fixed JPEG trailer of `get_minithumbnail_object` (PhotoSize.cpp:82):
base64 "/9k=" decoded. -/
def mini_footer : List Nat := [255, 217]

/-- The `td_api::minithumbnail` object built by `get_minithumbnail_object`. -/
structure minithumbnail where
  height : Nat
  width : Nat
  data : List Nat
deriving DecidableEq

/-- `get_minithumbnail_object` (PhotoSize.cpp:60): inputs shorter than 3
bytes, or whose first byte is not the tag 1, give no result; otherwise the
packed bytes are spliced into the fixed template. -/
def get_minithumbnail_object (packed : List Nat) : Option minithumbnail :=
  if packed.length < 3 then
    none
  else if packed.headD 0 = 1 then
    some ⟨packed.getD 1 0, packed.getD 2 0,
      mini_header.take 164 ++ [packed.getD 1 0] ++ [mini_header.getD 165 0] ++
        [packed.getD 2 0] ++ mini_header.drop 167 ++ packed.drop 3 ++ mini_footer⟩
  else
    none

end td

namespace td

/-- `PhotoFormat` from PhotoSize.h. -/
inductive PhotoFormat where
  | Jpeg | Png | Webp | Gif | Tgs | Mpeg4 | Webm
deriving DecidableEq

/-- The discriminated `telegram_api::PhotoSize` wire variants consumed by
`get_photo_size` (PhotoSize.cpp:183). The `type_` strings are byte lists;
`w_`, `h_`, `size_` and the scan sizes are `int32`. -/
inductive TelegramPhotoSize where
  | photoSizeEmpty
  | photoSize (type_ : List Nat) (w h size : Int)
  | photoCachedSize (type_ : List Nat) (w h : Int) (bytes : List Nat)
  | photoStrippedSize (bytes : List Nat)
  | photoSizeProgressive (type_ : List Nat) (w h : Int) (sizes : List Int)
  | photoPathSize (bytes : List Nat)
deriving DecidableEq

/-- `Variant<PhotoSize, string>`, the return type of `get_photo_size`. -/
inductive PhotoSizeVariant where
  | size (photo_size : PhotoSize)
  | bytes (content : List Nat)
deriving DecidableEq

/-- Result of one `get_photo_size` call, with the externally visible effects
made explicit: whether `register_photo_size` was called, whether inline
content was stored with `set_content`, the thumbnail type written back into
a thumbnail `PhotoSizeSource`, and how many `LOG(ERROR)` diagnostics the
body of `get_photo_size` itself issued. -/
structure DecodeResult where
  result : PhotoSizeVariant
  registered : Bool
  content_stored : Bool
  thumbnail_type_propagated : Option Nat
  violations : Nat
deriving DecidableEq

/-- The tail of `get_photo_size` (PhotoSize.cpp:247): coerce the wire tag
(reject length ≠ 1 and byte values ≥ 128 to 0, each with a diagnostic),
propagate the tag to a thumbnail source, register the descriptor, and store
nonempty inline content. `new_file_id` is the handle the external registrar
returns. -/
def decode_photo_size_tail (new_file_id : Int) (source_is_thumbnail : Bool)
    (type_ : List Nat) (res : PhotoSize) (content : List Nat) : DecodeResult :=
  let tv : Nat × Nat :=
    if type_.length ≠ 1 then (0, 1)
    else if type_.headD 0 ≥ 128 then (0, 1)
    else (type_.headD 0, 0)
  let res := { res with type := tv.1, file_id := new_file_id }
  { result := .size res
    registered := true
    content_stored := content ≠ []
    thumbnail_type_propagated := if source_is_thumbnail then some tv.1 else none
    violations := tv.2 }

/-- `get_photo_size` (PhotoSize.cpp:174), with the `FileManager` and
`PhotoSizeSource` arguments reduced to the data this code reads from them:
the handle a registration would return and whether the source is a
thumbnail source. -/
def get_photo_size (new_file_id : Int) (source_is_thumbnail : Bool)
    (size_ptr : TelegramPhotoSize) (format : PhotoFormat) : DecodeResult :=
  match size_ptr with
  | .photoSizeEmpty =>
    ⟨.size {}, false, false, none, 0⟩
  | .photoSize type_ w h size =>
    decode_photo_size_tail new_file_id source_is_thumbnail type_
      { dimensions := get_dimensions w h, size := size } []
  | .photoCachedSize type_ w h bytes =>
    decode_photo_size_tail new_file_id source_is_thumbnail type_
      { dimensions := get_dimensions w h, size := (bytes.length : Int) } bytes
  | .photoStrippedSize bytes =>
    if format ≠ .Jpeg then ⟨.size {}, false, false, none, 1⟩
    else ⟨.bytes bytes, false, false, none, 0⟩
  | .photoSizeProgressive type_ w h sizes =>
    if sizes = [] then ⟨.size {}, false, false, none, 1⟩
    else
      let sorted := sizes.mergeSort (fun a b => a ≤ b)
      decode_photo_size_tail new_file_id source_is_thumbnail type_
        { dimensions := get_dimensions w h, size := (sorted.getLast?.getD 0),
          progressive_sizes := sorted.dropLast } []
  | .photoPathSize bytes =>
    if format ≠ .Tgs ∧ format ≠ .Webp ∧ format ≠ .Webm then ⟨.size {}, false, false, none, 1⟩
    else ⟨.bytes bytes, false, false, none, 0⟩

/-- `AnimationSize` from PhotoSize.h: a `PhotoSize` plus a `double`
timestamp (embedded as an exact rational), defaulting to 0. -/
structure AnimationSize extends PhotoSize where
  main_frame_timestamp : ℚ := 0
deriving DecidableEq

/-- `operator==(const AnimationSize &, const AnimationSize &)`
(PhotoSize.cpp:433): `PhotoSize` equality plus
`fabs(lhs.main_frame_timestamp - rhs.main_frame_timestamp) < 1e-3`. -/
def animationSizeEq (lhs rhs : AnimationSize) : Bool :=
  photoSizeEq lhs.toPhotoSize rhs.toPhotoSize &&
    decide (|lhs.main_frame_timestamp - rhs.main_frame_timestamp| < 1 / 1000)

/-- The `telegram_api::videoSize` record consumed by `get_animation_size`:
`has_video_start_ts` is `(flags_ & VIDEO_START_TS_MASK) != 0`. -/
structure telegramVideoSize where
  type_ : List Nat
  w : Int
  h : Int
  size_ : Int
  has_video_start_ts : Bool
  video_start_ts : ℚ
deriving DecidableEq

/-- Result of one `get_animation_size` call, with external effects explicit
as in `DecodeResult`. -/
structure AnimationDecodeResult where
  result : AnimationSize
  registered : Bool
  thumbnail_type_propagated : Option Nat
  violations : Nat
deriving DecidableEq

/-- `get_animation_size` (PhotoSize.cpp:271): the bytes `'v'` and `'u'` are
118 and 117; a tag other than `"v"`/`"u"` is logged; the first tag byte
(`'\0'` for an empty string) is kept unless it is ≥ 128, in which case it is
logged and coerced to 0; registration always happens. -/
def get_animation_size (new_file_id : Int) (source_is_thumbnail : Bool)
    (size : telegramVideoSize) : AnimationDecodeResult :=
  let wrong_tag : Nat := if size.type_ ≠ [118] ∧ size.type_ ≠ [117] then 1 else 0
  let t0 := size.type_.headD 0
  let tv : Nat × Nat := if t0 ≥ 128 then (0, 1) else (t0, 0)
  let res : AnimationSize :=
    { type := tv.1
      dimensions := get_dimensions size.w size.h
      size := size.size_
      file_id := new_file_id
      main_frame_timestamp := if size.has_video_start_ts then size.video_start_ts else 0 }
  { result := res
    registered := true
    thumbnail_type_propagated := if source_is_thumbnail then some tv.1 else none
    violations := wrong_tag + tv.2 }

end td

namespace td

/-- `FileType`, reduced to what `get_web_document_photo_size` reads from it:
whether it equals `FileType::Thumbnail`. -/
inductive FileType where
  | Thumbnail
  | Photo
  | Temp
deriving DecidableEq

/-- The `telegram_api::DocumentAttribute` variants handled by the attribute
loop of `get_web_document_photo_size` (PhotoSize.cpp:354). -/
inductive TelegramDocumentAttribute where
  | imageSize (w h : Int)
  | animated
  | hasStickers
  | sticker
  | video
  | audio
  | filename
deriving DecidableEq

/-- The `telegram_api::WebDocument` wire variants (PhotoSize.cpp:309).
URLs and mime types are kept as Lean strings. -/
inductive TelegramWebDocument where
  | webDocument (url : String) (access_hash : Int) (size : Int) (mime_type : String)
      (attributes : List TelegramDocumentAttribute)
  | webDocumentNoProxy (url : String) (size : Int) (mime_type : String)
      (attributes : List TelegramDocumentAttribute)
deriving DecidableEq

/-- The external collaborators of `get_web_document_photo_size`:
`parse_url` yields the normalized URL and its query on success,
`register_remote` yields the handle for a URL remote location, and
`from_persistent_id` resolves a persistent id to a handle. -/
structure WebFileManager where
  parse_url : String → Option (String × String)
  register_remote : String → Int → Int
  from_persistent_id : String → Option Int

/-- Result of one `get_web_document_photo_size` call: the descriptor, how
many registrar calls (`register_remote` or `from_persistent_id`) were made,
and how many `LOG(ERROR)` diagnostics the body itself issued. -/
structure WebDecodeResult where
  result : PhotoSize
  registrar_calls : Nat
  violations : Nat

/-- The shared tail of `get_web_document_photo_size` (PhotoSize.cpp:350):
scan the attribute list (the last image-size attribute wins, the five
unexpected media attributes are each logged, filename attributes are
ignored), then classify the tag: `'v'` (118) for `video/mp4`, `'g'` (103)
for `image/gif`, `'t'` (116) for a thumbnail slot, else `'n'` (110). -/
def web_document_tail (file_id : Int) (file_type : FileType) (size : Int)
    (mime_type : String) (attributes : List TelegramDocumentAttribute)
    (registrar_calls : Nat) : WebDecodeResult :=
  let dimensions := attributes.foldl (fun d a =>
    match a with
    | .imageSize w h => get_dimensions w h
    | _ => d) {}
  let unexpected := attributes.countP (fun a =>
    match a with
    | .animated | .hasStickers | .sticker | .video | .audio => true
    | _ => false)
  let is_animation := mime_type = "video/mp4"
  let is_gif := mime_type = "image/gif"
  let t : Nat :=
    if is_animation then 118
    else if is_gif then 103
    else if file_type = .Thumbnail then 116
    else 110
  ⟨{ type := t, dimensions := dimensions, size := size, file_id := file_id }, registrar_calls,
    unexpected⟩

/-- `get_web_document_photo_size` (PhotoSize.cpp:299): a null record gives
the default descriptor at once; the direct-URL shape registers a remote
location after URL parsing; the no-proxy shape requires a `'.'` in the
reference and resolves a persistent id. Each hard-failure branch logs once
and returns the default descriptor. -/
def get_web_document_photo_size (fm : WebFileManager) (file_type : FileType)
    (web_document_ptr : Option TelegramWebDocument) : WebDecodeResult :=
  match web_document_ptr with
  | none => ⟨{}, 0, 0⟩
  | some (.webDocument url access_hash size mime_type attributes) =>
    match fm.parse_url url with
    | none => ⟨{}, 0, 1⟩
    | some (u, _q) =>
      web_document_tail (fm.register_remote u access_hash) file_type size mime_type attributes 1
  | some (.webDocumentNoProxy url size mime_type attributes) =>
    if ¬ url.contains '.' then ⟨{}, 0, 1⟩
    else
      match fm.from_persistent_id url with
      | none => ⟨{}, 1, 1⟩
      | some file_id => web_document_tail file_id file_type size mime_type attributes 1

/-- `FileId::is_valid`, modelled from the spec: the file handle "may be
invalid/unset when the descriptor carries only inline content and was never
registered"; the default-constructed handle value 0 is the unset one, and
registrar-assigned handles are positive. -/
def file_id_is_valid (file_id : Int) : Bool :=
  decide (0 < file_id)

/-- The behavior C8 claims of the common tag post-processing, as a predicate
of the produced `DecodeResult`: a one-byte tag below 128 is accepted as is
with no diagnostic, any other tag string is replaced by 0 with one
diagnostic, and the decode still registers the descriptor. -/
def tag_post_processing_ok (type_ : List Nat) (d : DecodeResult) : Prop :=
  d.registered = true ∧
  ∃ p, d.result = .size p ∧
    (if type_.length = 1 ∧ type_.headD 0 < 128
      then p.type = type_.headD 0 ∧ d.violations = 0
      else p.type = 0 ∧ d.violations = 1)

end td

namespace td

/-- Helper: the source `operator==` on `PhotoSize` decides equality. -/
theorem photoSizeEq_iff (a b : PhotoSize) : photoSizeEq a b = true ↔ a = b := by
  cases a
  cases b
  simp only [photoSizeEq, Bool.and_eq_true, beq_iff_eq, PhotoSize.mk.injEq]
  tauto

/-- C3: `get_dimensions` returns the pair unchanged when both coordinates
are in `[1, 65535]`, returns `(0, 0)` whenever either coordinate is
nonpositive or above 65535, and its result always satisfies the
all-or-nothing invariant. -/
theorem get_dimensions_correct (w h : Int) :
    (1 ≤ w → w ≤ 65535 → 1 ≤ h → h ≤ 65535 → get_dimensions w h = ⟨w.toNat, h.toNat⟩) ∧
    ((w ≤ 0 ∨ 65535 < w ∨ h ≤ 0 ∨ 65535 < h) → get_dimensions w h = ⟨0, 0⟩) ∧
    dimensionsInvariant (get_dimensions w h) := by
  simp only [get_dimensions, get_dimension, dimensionsInvariant]
  split_ifs with h1 h2 h3 <;>
    refine ⟨fun a b c d => ?_, fun a => ?_, ?_⟩ <;>
    simp_all [Dimensions.mk.injEq] <;>
    omega

/-- Witness for C3 at the inputs (640, 480) and (70000, 480). -/
theorem get_dimensions_correct_witness :
    get_dimensions 640 480 = ⟨640, 480⟩ ∧ get_dimensions 70000 480 = ⟨0, 0⟩ ∧
      dimensionsInvariant (get_dimensions 640 480) :=
  ⟨(get_dimensions_correct 640 480).1 (by decide) (by decide) (by decide) (by decide),
    (get_dimensions_correct 70000 480).2.1 (by decide),
    (get_dimensions_correct 640 480).2.2⟩

/-- C10: a null web-document record yields the default descriptor (tag 0,
zero dimensions, zero size, the unset file handle, no progressive sizes),
with no registrar call and no diagnostic. -/
theorem get_web_document_photo_size_null (fm : WebFileManager) (file_type : FileType) :
    get_web_document_photo_size fm file_type none =
      ⟨{ type := 0, dimensions := ⟨0, 0⟩, size := 0, file_id := 0, progressive_sizes := [] },
        0, 0⟩ ∧
    file_id_is_valid (get_web_document_photo_size fm file_type none).result.file_id = false :=
  ⟨rfl, rfl⟩

/-- C4: for a packed input of length at least 3 whose first byte is the
tag 1, the reconstructed JPEG is exactly the spliced template with the
height taken from byte 1 and the width from byte 2; shorter inputs and
unrecognized tags give no result. -/
theorem get_minithumbnail_object_correct (packed : List Nat) :
    (3 ≤ packed.length → packed.headD 0 = 1 →
      get_minithumbnail_object packed = some ⟨packed.getD 1 0, packed.getD 2 0,
        mini_header.take 164 ++ [packed.getD 1 0] ++ [mini_header.getD 165 0] ++
          [packed.getD 2 0] ++ mini_header.drop 167 ++ packed.drop 3 ++ mini_footer⟩) ∧
    (packed.length < 3 → get_minithumbnail_object packed = none) ∧
    (packed.headD 0 ≠ 1 → get_minithumbnail_object packed = none) := by
  simp only [get_minithumbnail_object]
  split_ifs with h1 h2 <;>
    refine ⟨fun a b => ?_, fun a => ?_, fun a => ?_⟩ <;>
    first
      | rfl
      | omega

/-- Witness for C4 at the packed input `[1, 10, 20]`. -/
theorem get_minithumbnail_object_correct_witness :
    get_minithumbnail_object [1, 10, 20] = some ⟨10, 20,
      mini_header.take 164 ++ [10] ++ [mini_header.getD 165 0] ++ [20] ++
        mini_header.drop 167 ++ [] ++ mini_footer⟩ :=
  (get_minithumbnail_object_correct [1, 10, 20]).1 (by decide) rfl

/-- C9: the source `AnimationSize` equality holds exactly when the
`PhotoSize` parts are equal and the timestamps differ by less than 1e-3;
timestamps 1.0000 and 1.0009 compare equal, 1.0000 and 1.005 unequal. -/
theorem animationSizeEq_correct :
    (∀ lhs rhs : AnimationSize, animationSizeEq lhs rhs = true ↔
      (lhs.toPhotoSize = rhs.toPhotoSize ∧
        |lhs.main_frame_timestamp - rhs.main_frame_timestamp| < 1 / 1000)) ∧
    animationSizeEq { main_frame_timestamp := 1 } { main_frame_timestamp := 10009 / 10000 } =
      true ∧
    animationSizeEq { main_frame_timestamp := 1 } { main_frame_timestamp := 1005 / 1000 } =
      false := by
  refine ⟨fun lhs rhs => ?_, ?_, ?_⟩
  · simp [animationSizeEq, photoSizeEq_iff]
  · simp only [animationSizeEq, photoSizeEq]
    norm_num
    rw [abs_lt]
    constructor <;> norm_num
  · simp only [animationSizeEq, photoSizeEq]
    norm_num
    rw [le_abs]
    left
    norm_num

/-- C7: a stripped-size record under any non-JPEG format gives the empty
descriptor with one diagnostic, no registration and no stored content;
under JPEG it gives the raw inline bytes. -/
theorem get_photo_size_stripped (nf : Int) (st : Bool) (bytes : List Nat)
    (format : PhotoFormat) :
    (format ≠ .Jpeg →
      get_photo_size nf st (.photoStrippedSize bytes) format =
        ⟨.size {}, false, false, none, 1⟩) ∧
    get_photo_size nf st (.photoStrippedSize bytes) .Jpeg =
      ⟨.bytes bytes, false, false, none, 0⟩ := by
  constructor
  · intro h
    simp [get_photo_size, h]
  · simp [get_photo_size]

/-- Witness for C7 at the PNG format. -/
theorem get_photo_size_stripped_witness :
    PhotoFormat.Png ≠ PhotoFormat.Jpeg ∧
    get_photo_size 5 false (.photoStrippedSize [7, 8]) .Png =
      ⟨.size {}, false, false, none, 1⟩ :=
  ⟨by decide, (get_photo_size_stripped 5 false [7, 8] .Png).1 (by decide)⟩

end td

namespace td

/-- Helper: propositional characterization of the source comparator. -/
theorem photoSizeLt_iff (lhs rhs : PhotoSize) :
    photoSizeLt lhs rhs = true ↔
      (lhs.size < rhs.size ∨ (lhs.size = rhs.size ∧
        (get_pixel_count lhs.dimensions < get_pixel_count rhs.dimensions ∨
          (get_pixel_count lhs.dimensions = get_pixel_count rhs.dimensions ∧
            (tagKey lhs.type < tagKey rhs.type ∨ (tagKey lhs.type = tagKey rhs.type ∧
              (lhs.file_id < rhs.file_id ∨ (lhs.file_id = rhs.file_id ∧
                lhs.dimensions.width < rhs.dimensions.width)))))))) := by
  simp only [photoSizeLt, tagKey]
  split_ifs <;> simp_all

/-- Helper: propositional characterization of the spec-worded comparator. -/
theorem photoSizeLtSpec_iff (lhs rhs : PhotoSize) :
    photoSizeLtSpec lhs rhs = true ↔
      (lhs.size < rhs.size ∨ (lhs.size = rhs.size ∧
        (get_pixel_count lhs.dimensions < get_pixel_count rhs.dimensions ∨
          (get_pixel_count lhs.dimensions = get_pixel_count rhs.dimensions ∧
            (tagKey lhs.type < tagKey rhs.type ∨ (tagKey lhs.type = tagKey rhs.type ∧
              (lhs.file_id < rhs.file_id ∨ (lhs.file_id = rhs.file_id ∧
                lhs.dimensions.width < rhs.dimensions.width)))))))) := by
  simp [photoSizeLtSpec]

/-- C1: the source comparator coincides with the spec's five-key
lexicographic order, and in particular, at equal size and pixel count a
thumbnail-role tag `'t'` (116) on the left and any other tag on the right
gives `lhs < rhs`. -/
theorem photoSizeLt_matches_spec (lhs rhs : PhotoSize) :
    photoSizeLt lhs rhs = photoSizeLtSpec lhs rhs ∧
    (lhs.size = rhs.size →
      get_pixel_count lhs.dimensions = get_pixel_count rhs.dimensions →
      lhs.type = 116 → rhs.type ≠ 116 → photoSizeLt lhs rhs = true) := by
  constructor
  · rw [Bool.eq_iff_iff, photoSizeLt_iff, photoSizeLtSpec_iff]
  · intro hs hp ht hrt
    rw [photoSizeLt_iff]
    refine Or.inr ⟨hs, Or.inr ⟨hp, Or.inl ?_⟩⟩
    have h1 : tagKey lhs.type = -1 := by simp [tagKey, ht]
    have h2 : 0 ≤ tagKey rhs.type := by
      simp only [tagKey, if_neg hrt]
      exact Int.natCast_nonneg _
    omega

/-- Witness for C1 at the spec's example pair: size 10, 10×10 pixels,
tags `'t'` (116) and `'n'` (110). -/
theorem photoSizeLt_matches_spec_witness :
    photoSizeLt { type := 116, dimensions := ⟨10, 10⟩, size := 10 }
        { type := 110, dimensions := ⟨10, 10⟩, size := 10 } = true ∧
    photoSizeLt { type := 116, dimensions := ⟨10, 10⟩, size := 10 }
        { type := 110, dimensions := ⟨10, 10⟩, size := 10 } =
      photoSizeLtSpec { type := 116, dimensions := ⟨10, 10⟩, size := 10 }
        { type := 110, dimensions := ⟨10, 10⟩, size := 10 } :=
  ⟨(photoSizeLt_matches_spec _ _).2 rfl rfl rfl (by decide),
    (photoSizeLt_matches_spec { type := 116, dimensions := ⟨10, 10⟩, size := 10 }
      { type := 110, dimensions := ⟨10, 10⟩, size := 10 }).1⟩

end td

namespace td

/-- Helper: the `'t' ↦ -1` adjustment never identifies two distinct tags,
because every unadjusted tag is nonnegative. -/
theorem tagKey_inj {a b : Nat} (h : tagKey a = tagKey b) : a = b := by
  simp only [tagKey] at h
  split_ifs at h <;> omega

/-- Helper: under the all-or-nothing invariant, equal widths and equal pixel
counts force equal dimensions. -/
theorem dimensions_eq_of_width_eq (d e : Dimensions) (hd : dimensionsInvariant d)
    (he : dimensionsInvariant e) (hw : d.width = e.width)
    (hp : get_pixel_count d = get_pixel_count e) : d = e := by
  obtain ⟨w, hgt⟩ := d
  obtain ⟨w', hgt'⟩ := e
  simp only [dimensionsInvariant, get_pixel_count] at hd he hp hw ⊢
  subst hw
  rcases Nat.eq_zero_or_pos w with hzero | hpos
  · subst hzero
    simp only [Dimensions.mk.injEq, true_and]
    omega
  · simp only [Dimensions.mk.injEq, true_and]
    exact Nat.eq_of_mul_eq_mul_left hpos hp

/-- Helper: transitivity of the source comparator. -/
theorem photoSizeLt_trans (a b c : PhotoSize) (hab : photoSizeLt a b = true)
    (hbc : photoSizeLt b c = true) : photoSizeLt a c = true := by
  rw [photoSizeLt_iff] at hab hbc ⊢
  omega

/-- Helper: asymmetry of the source comparator. -/
theorem photoSizeLt_asymm (a b : PhotoSize) (hab : photoSizeLt a b = true) :
    photoSizeLt b a = false := by
  rw [Bool.eq_false_iff]
  intro hba
  rw [photoSizeLt_iff] at hab hba
  omega

/-- C6, amended: the comparator is transitive and asymmetric on all
descriptors, and it is total (exactly one of `lhs < rhs`, `rhs < lhs` holds
for unequal descriptors) on descriptors that carry equal progressive-size
sequences and whose dimensions satisfy the all-or-nothing invariant. -/
theorem photoSizeLt_strict_order :
    (∀ a b c : PhotoSize, photoSizeLt a b = true → photoSizeLt b c = true →
      photoSizeLt a c = true) ∧
    (∀ a b : PhotoSize, photoSizeLt a b = true → photoSizeLt b a = false) ∧
    (∀ a b : PhotoSize, a.progressive_sizes = b.progressive_sizes →
      dimensionsInvariant a.dimensions → dimensionsInvariant b.dimensions →
      photoSizeEq a b = false →
      Xor' (photoSizeLt a b = true) (photoSizeLt b a = true)) := by
  refine ⟨photoSizeLt_trans, photoSizeLt_asymm, fun a b hprog hda hdb hne => ?_⟩
  by_cases hab : photoSizeLt a b = true
  · exact Or.inl ⟨hab, by simp [photoSizeLt_asymm a b hab]⟩
  · refine Or.inr ⟨?_, hab⟩
    have hnab : ¬(a.size < b.size ∨ (a.size = b.size ∧
        (get_pixel_count a.dimensions < get_pixel_count b.dimensions ∨
          (get_pixel_count a.dimensions = get_pixel_count b.dimensions ∧
            (tagKey a.type < tagKey b.type ∨ (tagKey a.type = tagKey b.type ∧
              (a.file_id < b.file_id ∨ (a.file_id = b.file_id ∧
                a.dimensions.width < b.dimensions.width)))))))) :=
      fun hd => hab ((photoSizeLt_iff a b).mpr hd)
    rw [photoSizeLt_iff]
    have key : (b.size < a.size ∨ (b.size = a.size ∧
        (get_pixel_count b.dimensions < get_pixel_count a.dimensions ∨
          (get_pixel_count b.dimensions = get_pixel_count a.dimensions ∧
            (tagKey b.type < tagKey a.type ∨ (tagKey b.type = tagKey a.type ∧
              (b.file_id < a.file_id ∨ (b.file_id = a.file_id ∧
                b.dimensions.width < a.dimensions.width)))))))) ∨
        (a.size = b.size ∧ get_pixel_count a.dimensions = get_pixel_count b.dimensions ∧
          tagKey a.type = tagKey b.type ∧ a.file_id = b.file_id ∧
          a.dimensions.width = b.dimensions.width) := by omega
    rcases key with hlt | ⟨h1, h2, h3, h4, h5⟩
    · exact hlt
    · exfalso
      have htype : a.type = b.type := tagKey_inj h3
      have hdims : a.dimensions = b.dimensions :=
        dimensions_eq_of_width_eq _ _ hda hdb h5 h2
      have hab2 : a = b := by
        obtain ⟨t, d, s, f, p⟩ := a
        obtain ⟨t', d', s', f', p'⟩ := b
        simp_all
      rw [(photoSizeEq_iff a b).mpr hab2] at hne
      simp at hne

end td

namespace td

/-- Counterexample for C6 as stated: two pairs of descriptors that the
source `operator==` declares unequal, yet neither compares below the other
under `operator<` — one pair differing only in `progressive_sizes`, one
pair differing only in the height of zero-width dimensions. -/
theorem photoSizeLt_not_total :
    (photoSizeEq { } ({ progressive_sizes := [1] } : PhotoSize) = false ∧
      photoSizeLt { } ({ progressive_sizes := [1] } : PhotoSize) = false ∧
      photoSizeLt ({ progressive_sizes := [1] } : PhotoSize) { } = false) ∧
    (photoSizeEq ({ dimensions := ⟨0, 1⟩ } : PhotoSize)
        ({ dimensions := ⟨0, 2⟩ } : PhotoSize) = false ∧
      photoSizeLt ({ dimensions := ⟨0, 1⟩ } : PhotoSize)
        ({ dimensions := ⟨0, 2⟩ } : PhotoSize) = false ∧
      photoSizeLt ({ dimensions := ⟨0, 2⟩ } : PhotoSize)
        ({ dimensions := ⟨0, 1⟩ } : PhotoSize) = false) := by
  decide

/-- Witness for C6's amended theorem: transitivity, asymmetry and totality
applied at concrete descriptors. -/
theorem photoSizeLt_strict_order_witness :
    photoSizeLt ({ size := 1 } : PhotoSize) ({ size := 3 } : PhotoSize) = true ∧
    photoSizeLt ({ size := 2 } : PhotoSize) ({ size := 1 } : PhotoSize) = false ∧
    Xor' (photoSizeLt ({ size := 1 } : PhotoSize) ({ size := 2 } : PhotoSize) = true)
      (photoSizeLt ({ size := 2 } : PhotoSize) ({ size := 1 } : PhotoSize) = true) :=
  ⟨photoSizeLt_strict_order.1 { size := 1 } { size := 2 } { size := 3 }
      (by decide) (by decide),
    photoSizeLt_strict_order.2.1 { size := 1 } { size := 2 } (by decide),
    photoSizeLt_strict_order.2.2 { size := 1 } { size := 2 } rfl
      (by decide) (by decide) (by decide)⟩

/-- Helper: `decode_photo_size_tail` satisfies the C8 predicate. -/
theorem decode_photo_size_tail_ok (new_file_id : Int) (source_is_thumbnail : Bool)
    (type_ : List Nat) (res : PhotoSize) (content : List Nat) :
    tag_post_processing_ok type_
      (decode_photo_size_tail new_file_id source_is_thumbnail type_ res content) := by
  unfold tag_post_processing_ok decode_photo_size_tail
  refine ⟨rfl, _, rfl, ?_⟩
  split_ifs with h1 h2 h3 <;> first
    | (simp_all; omega)
    | simp_all

/-- C8: for the Plain, Cached-inline and Progressive variants (the latter
with a nonempty scan list), the decoded tag is the wire byte exactly when
the wire tag is one byte below 128, and is 0 with a logged violation
otherwise; in all cases the decode completes and registers. -/
theorem get_photo_size_tag_coercion (new_file_id : Int) (source_is_thumbnail : Bool)
    (type_ : List Nat) (w h sz : Int) (bytes : List Nat) (sizes : List Int)
    (format : PhotoFormat) :
    tag_post_processing_ok type_ (get_photo_size new_file_id source_is_thumbnail
      (.photoSize type_ w h sz) format) ∧
    tag_post_processing_ok type_ (get_photo_size new_file_id source_is_thumbnail
      (.photoCachedSize type_ w h bytes) format) ∧
    (sizes ≠ [] → tag_post_processing_ok type_ (get_photo_size new_file_id
      source_is_thumbnail (.photoSizeProgressive type_ w h sizes) format)) := by
  refine ⟨decode_photo_size_tail_ok _ _ _ _ _, decode_photo_size_tail_ok _ _ _ _ _,
    fun hne => ?_⟩
  simp only [get_photo_size, if_neg hne]
  exact decode_photo_size_tail_ok _ _ _ _ _

/-- Witness for C8 at the out-of-range tag byte 200 and the over-long tag
`"ab"`, over all three variants. -/
theorem get_photo_size_tag_coercion_witness :
    tag_post_processing_ok [200] (get_photo_size 3 false
      (.photoSize [200] 1 1 9) .Jpeg) ∧
    tag_post_processing_ok [97, 98] (get_photo_size 3 false
      (.photoCachedSize [97, 98] 1 1 [5]) .Jpeg) ∧
    tag_post_processing_ok [110] (get_photo_size 3 false
      (.photoSizeProgressive [110] 1 1 [10]) .Jpeg) :=
  ⟨(get_photo_size_tag_coercion 3 false [200] 1 1 9 [] [] .Jpeg).1,
    (get_photo_size_tag_coercion 3 false [97, 98] 1 1 9 [5] [] .Jpeg).2.1,
    (get_photo_size_tag_coercion 3 false [110] 1 1 9 [] [10] .Jpeg).2.2 (by decide)⟩

end td

namespace td

/-- Counterexample for C5 as stated: the wire tag `"x"` (byte 120) is
neither `'v'` nor `'u'`, so a violation is logged, yet the resulting tag is
120, not the claimed 0 — the code coerces to 0 only for bytes ≥ 128. -/
theorem get_animation_size_keeps_small_wrong_tag :
    (get_animation_size 3 false ⟨[120], 1, 1, 5, false, 0⟩).violations = 1 ∧
    (get_animation_size 3 false ⟨[120], 1, 1, 5, false, 0⟩).result.toPhotoSize.type = 120 :=
  ⟨rfl, rfl⟩

/-- C5, amended: a tag other than `"v"`/`"u"` is logged as a violation and
the decode still completes (the descriptor is registered); the accepted
tags produce no violation; but the tag byte is coerced to 0 only when it is
at least 128 — a smaller wrong tag byte is kept in the descriptor. -/
theorem get_animation_size_tag_behavior (new_file_id : Int) (source_is_thumbnail : Bool)
    (size : telegramVideoSize) :
    (size.type_ ≠ [118] → size.type_ ≠ [117] →
      1 ≤ (get_animation_size new_file_id source_is_thumbnail size).violations) ∧
    ((size.type_ = [118] ∨ size.type_ = [117]) →
      (get_animation_size new_file_id source_is_thumbnail size).violations = 0) ∧
    (get_animation_size new_file_id source_is_thumbnail size).result.toPhotoSize.type =
      (if size.type_.headD 0 < 128 then size.type_.headD 0 else 0) ∧
    (get_animation_size new_file_id source_is_thumbnail size).registered = true := by
  refine ⟨fun h1 h2 => ?_, fun h => ?_, ?_, rfl⟩
  · simp only [get_animation_size]
    rw [if_pos ⟨h1, h2⟩]
    split_ifs <;> omega
  · rcases h with h | h <;>
      simp [get_animation_size, h]
  · simp only [get_animation_size]
    split_ifs <;> first
      | (simp_all; omega)
      | simp_all

/-- Witness for C5's amended theorem at the wrong tag `"x"` (byte 120) and
the accepted tag `"v"` (byte 118). -/
theorem get_animation_size_tag_behavior_witness :
    1 ≤ (get_animation_size 3 true ⟨[120], 4, 4, 9, false, 0⟩).violations ∧
    (get_animation_size 3 true ⟨[118], 4, 4, 9, false, 0⟩).violations = 0 :=
  ⟨(get_animation_size_tag_behavior 3 true ⟨[120], 4, 4, 9, false, 0⟩).1
      (by decide) (by decide),
    (get_animation_size_tag_behavior 3 true ⟨[118], 4, 4, 9, false, 0⟩).2.1
      (Or.inl rfl)⟩

end td

namespace td

/-- Helper: the defensive sort of the progressive scan list is sorted. -/
theorem mergeSort_le_sorted (l : List Int) :
    List.Pairwise (fun a b : Int => a ≤ b) (l.mergeSort (fun a b => a ≤ b)) := by
  have h := @List.sorted_mergeSort Int (fun a b => a ≤ b)
    (fun a b c h1 h2 => by simp only [decide_eq_true_eq] at h1 h2 ⊢; omega)
    (fun a b => by simp only [Bool.or_eq_true, decide_eq_true_eq]; exact Int.le_total a b) l
  exact h.imp (fun hab => by simpa using hab)

/-- C2: a progressive record with an empty scan list decodes to the empty
descriptor with no registration; a nonempty scan list yields a registered
descriptor whose `size` is a maximal element of the scan list and whose
`progressive_sizes` are the remaining elements in ascending order; the
scan list `[100, 50, 300]` yields size 300 and remainder `[50, 100]`. -/
theorem get_photo_size_progressive (new_file_id : Int) (source_is_thumbnail : Bool)
    (type_ : List Nat) (w h : Int) (sizes : List Int) (format : PhotoFormat) :
    get_photo_size new_file_id source_is_thumbnail
      (.photoSizeProgressive type_ w h []) format = ⟨.size {}, false, false, none, 1⟩ ∧
    (sizes ≠ [] → ∃ p,
      (get_photo_size new_file_id source_is_thumbnail
          (.photoSizeProgressive type_ w h sizes) format).result = .size p ∧
      (get_photo_size new_file_id source_is_thumbnail
          (.photoSizeProgressive type_ w h sizes) format).registered = true ∧
      p.size ∈ sizes ∧ (∀ x ∈ sizes, x ≤ p.size) ∧
      List.Sorted (· ≤ ·) p.progressive_sizes ∧
      (p.progressive_sizes ++ [p.size]).Perm sizes) ∧
    (∃ p, (get_photo_size new_file_id source_is_thumbnail
        (.photoSizeProgressive type_ w h [100, 50, 300]) format).result = .size p ∧
      p.size = 300 ∧ p.progressive_sizes = [50, 100]) := by
  refine ⟨by simp [get_photo_size], fun hne => ?_, ?_⟩
  · have hperm : (sizes.mergeSort (fun a b => a ≤ b)).Perm sizes :=
      List.mergeSort_perm sizes _
    have hnil : sizes.mergeSort (fun a b => a ≤ b) ≠ [] := by
      intro hmt
      rw [hmt] at hperm
      exact hne (List.perm_nil.mp hperm.symm)
    have hsorted := mergeSort_le_sorted sizes
    have hdecomp := List.dropLast_append_getLast hnil
    have hgl : (sizes.mergeSort (fun a b => a ≤ b)).getLast?.getD 0 =
        (sizes.mergeSort (fun a b => a ≤ b)).getLast hnil := by
      rw [List.getLast?_eq_getLast _ hnil]
      rfl
    simp only [get_photo_size, if_neg hne, decode_photo_size_tail]
    refine ⟨_, rfl, trivial, ?_, ?_, ?_, ?_⟩
    · show (sizes.mergeSort (fun a b => a ≤ b)).getLast?.getD 0 ∈ sizes
      rw [hgl]
      exact hperm.subset (List.getLast_mem hnil)
    · intro x hx
      show x ≤ (sizes.mergeSort (fun a b => a ≤ b)).getLast?.getD 0
      rw [hgl]
      have hx' : x ∈ sizes.mergeSort (fun a b => a ≤ b) := hperm.symm.subset hx
      rw [← hdecomp] at hx' hsorted
      rcases List.pairwise_append.mp hsorted with ⟨_, _, hcross⟩
      rcases List.mem_append.mp hx' with hx1 | hx1
      · exact hcross x hx1 _ (List.mem_singleton.mpr rfl)
      · rw [List.mem_singleton.mp hx1]
    · exact List.Pairwise.sublist (List.dropLast_sublist _) hsorted
    · show ((sizes.mergeSort (fun a b => a ≤ b)).dropLast ++
        [(sizes.mergeSort (fun a b => a ≤ b)).getLast?.getD 0]).Perm sizes
      rw [hgl, hdecomp]
      exact hperm
  · simp only [get_photo_size]
    rw [if_neg (by decide : ¬([100, 50, 300] : List Int) = [])]
    simp only [decode_photo_size_tail]
    refine ⟨_, rfl, ?_, ?_⟩
    · show (([100, 50, 300] : List Int).mergeSort (fun a b => a ≤ b)).getLast?.getD 0 = 300
      simp [List.mergeSort]
    · show (([100, 50, 300] : List Int).mergeSort (fun a b => a ≤ b)).dropLast = [50, 100]
      simp [List.mergeSort]

/-- Witness for C2 at the scan list `[100, 50, 300]`. -/
theorem get_photo_size_progressive_witness :
    ([100, 50, 300] : List Int) ≠ [] ∧ ∃ p,
      (get_photo_size 1 false (.photoSizeProgressive [110] 4 5 [100, 50, 300])
          .Jpeg).result = .size p ∧
      (get_photo_size 1 false (.photoSizeProgressive [110] 4 5 [100, 50, 300])
          .Jpeg).registered = true ∧
      p.size ∈ ([100, 50, 300] : List Int) ∧ (∀ x ∈ ([100, 50, 300] : List Int), x ≤ p.size) ∧
      List.Sorted (· ≤ ·) p.progressive_sizes ∧
      (p.progressive_sizes ++ [p.size]).Perm [100, 50, 300] :=
  ⟨by decide,
    (get_photo_size_progressive 1 false [110] 4 5 [100, 50, 300] .Jpeg).2.1 (by decide)⟩

end td
